import Mathlib

/-!
Verification of the log-tail-and-dispatch engine of the vrcwd connector.

The definitions below are a shallow embedding of the Go source:

* `readFile` / `ReadFile` embed `(*App).ReadFile` (src/connector/app.go,
  lines 229-254): open the file, seek to the shared `lastOffset`, scan
  newline-terminated lines with a `bufio.Scanner`, then set `lastOffset`
  to the file position reported by `Seek(0, io.SeekCurrent)`.
* `scanLines` embeds the behaviour of `bufio.Scanner` with its default
  `bufio.ScanLines` split function: tokens are the text between newlines,
  a trailing carriage return is stripped from each token, and the last
  non-empty token is returned even when it is not newline-terminated.
* `evaluateLine` embeds `(*App).evaluateLine` (src/connector/app.go,
  lines 257-300), the rule loop over `a.SaveData.Settings`.
* `HttpPost` embeds `(*App).HttpPost` (src/connector/app.go, lines 321-344).
* `WatchFile` embeds the state changes of `(*App).WatchFile`
  (src/connector/app.go, lines 185-220).
* `legacyEvaluateLine` embeds the pre-rule-engine `(*App).evaluateLine`
  of the older connector source (src/unnamed/part_000, lines 223-245).

File contents are modelled as `List Char` with one `Char` per byte, which
is exact for the ASCII inputs considered here; offsets are indices into
that list.  Process termination by `log.Fatal` or by a panic from
`regexp.MustCompile` is modelled explicitly (`ReadOutcome.fatal`,
`HttpPostResult.fatal`, `EvalResult.panicked`, `EvalResult.fatal`,
`LegacyResult.panicked`), and the HTTP transport is an explicit
parameter (`Network`) so that its failure paths stay visible.
-/

namespace Vrcwd

/-- Strip one trailing carriage return, as the `dropCR` helper of Go's
`bufio.ScanLines` does to every token. -/
def dropCR (l : List Char) : List Char :=
  if l.getLast? = some '\r' then l.dropLast else l

/-- Split a character list at every newline.  The result is never empty;
text after the final newline (possibly empty) is the last element.  This
mirrors how `bufio.ScanLines` cuts the input at each `\n`. -/
def splitNL : List Char → List (List Char)
  | [] => [[]]
  | c :: cs =>
    if c = '\n' then [] :: splitNL cs
    else
      match splitNL cs with
      | [] => [[c]]
      | p :: ps => (c :: p) :: ps

/-- Drop the last element of a split when it is empty: `bufio.Scanner`
returns no token for the empty residue after a final newline. -/
def stripLastEmpty (ps : List (List Char)) : List (List Char) :=
  if ps.getLast? = some [] then ps.dropLast else ps

/-- The sequence of tokens produced by a `bufio.Scanner` with the default
`bufio.ScanLines` split over the given content.  Note that a last
unterminated line IS returned as a token (Go documentation: the last
non-empty line of input will be returned even if it has no newline). -/
def scanLines (l : List Char) : List (List Char) :=
  (stripLastEmpty (splitNL l)).map dropCR

/-- Core of `(*App).ReadFile` (src/connector/app.go, lines 229-254) on an
openable file: seek to `lastOffset`, scan every remaining line, and return
the scanned lines together with the new `lastOffset`, which the Go code
takes from `file.Seek(0, io.SeekCurrent)` after the scanner has drained
the file — i.e. the raw end-of-file position (or the unchanged seek
position when the seek target is at or past end of file, where the
scanner reads nothing). -/
def readFile (content : List Char) (lastOffset : Nat) : List (List Char) × Nat :=
  if content.length ≤ lastOffset then ([], lastOffset)
  else (scanLines (content.drop lastOffset), content.length)

/-- Outcome of one `ReadFile` pass.  `fatal` models `log.Fatal`, which
terminates the host process. -/
inductive ReadOutcome
  | fatal
  | ok (lines : List (List Char)) (newOffset : Nat)
deriving DecidableEq

/-- One pass of `(*App).ReadFile` (src/connector/app.go, lines 229-254).
The `file` argument is `none` when `os.Open` fails (missing file,
permission denied); the Go code then calls `log.Fatal(err)`, terminating
the process, which is modelled by `ReadOutcome.fatal`. -/
def ReadFile (file : Option (List Char)) (lastOffset : Nat) : ReadOutcome :=
  match file with
  | none => .fatal
  | some content => .ok (readFile content lastOffset).1 (readFile content lastOffset).2

/-- The `Setting` struct of src/connector/app.go (lines 49-57): one
user-configured rule. -/
structure Setting where
  id : String
  title : String
  details : String
  target : String
  type : String
  url : String
  regExp : String
deriving DecidableEq

/-- The `HttpRequestModel` struct of src/connector/app.go (lines 38-41):
the JSON payload posted by the WebRequest sink. -/
structure HttpRequestModel where
  value : String
  title : String
deriving DecidableEq

/-- Result of `(*App).HttpPost`.  `urlEmpty` and `urlInvalid` are the two
early returns that perform no network call (messages "URL is empty" and
"URL is invalid").  `posted` records that `http.Post` was reached and
succeeded with the given response body (the function returns "OK").
`fatal` records that `http.Post` was reached but the transport call or
the response-body read failed: the Go code then calls `log.Fatal`
(src/connector/app.go, lines 334-335 and 339-341) and the process
terminates. -/
inductive HttpPostResult
  | urlEmpty
  | urlInvalid
  | fatal (payload : HttpRequestModel) (url : String)
  | posted (payload : HttpRequestModel) (url : String) (body : String)
deriving DecidableEq

/-- Go's `strings.HasPrefix`. -/
def goHasPrefix (s pre : String) : Bool :=
  pre.toList.isPrefixOf s.toList

/-- The external HTTP transport as `HttpPost` sees it: `post url payload`
is `some body` when `http.Post` succeeds and `io.ReadAll` reads the
response body without error, and `none` when either step fails (the Go
code then dies in `log.Fatal`). -/
structure Network where
  post : String → HttpRequestModel → Option String

/-- Embeds `(*App).HttpPost` (src/connector/app.go, lines 321-344): return
early when the URL is empty, or when it does not start with "http";
otherwise marshal the payload and issue the POST, dying in `log.Fatal`
when the transport or the body read fails. -/
def HttpPost (net : Network) (eventString title url : String) : HttpPostResult :=
  if url = "" then .urlEmpty
  else if !(goHasPrefix url "http") then .urlInvalid
  else
    match net.post url ⟨eventString, title⟩ with
    | none => .fatal ⟨eventString, title⟩ url
    | some body => .posted ⟨eventString, title⟩ url body

/-- Whether the `HttpPost` outcome reached the `http.Post` network call. -/
def HttpPostResult.networkCalled : HttpPostResult → Bool
  | .posted _ _ _ => true
  | .fatal _ _ => true
  | _ => false

/-- Whether the `HttpPost` outcome is one of the two invalid-configuration
early returns ("URL is empty" / "URL is invalid"). -/
def HttpPostResult.invalidConfig : HttpPostResult → Bool
  | .urlEmpty => true
  | .urlInvalid => true
  | _ => false

/-- Whether the `HttpPost` outcome hit one of the two `log.Fatal` calls
after the network call, terminating the process. -/
def HttpPostResult.isFatal : HttpPostResult → Bool
  | .fatal _ _ => true
  | _ => false

/-- Interface of the Go `regexp` package as used by `evaluateLine`:
`compileOk p` tells whether `regexp.MustCompile(p)` succeeds (it panics
otherwise), and `findString p line` is `(regexp.MustCompile p).FindString
line` — the leftmost match of `p` in `line`, with the empty string
returned both when there is no match and when the first match is empty. -/
structure RegexEngine where
  compileOk : String → Bool
  findString : String → String → String

/-- A rule match: the rule together with the matched substring that
`FindString` returned (the `matches` local of the Go loop). -/
structure RuleMatch where
  setting : Setting
  matched : String
deriving DecidableEq

/-- The side effect performed for one match, branched on `setting.Type`
exactly as src/connector/app.go lines 266-274: "Web Request" calls
`HttpPost`; the "xs" and "log" branches are commented out in the source
and fall through, as does any other type. -/
inductive Dispatch
  | webRequest (result : HttpPostResult)
  | noOp
deriving DecidableEq

/-- The dispatch performed for a single match, as a function of that match
and the transport (src/connector/app.go, lines 266-274). -/
def dispatchFor (net : Network) (m : RuleMatch) : Dispatch :=
  if m.setting.type = "Web Request" then
    .webRequest (HttpPost net m.matched m.setting.title m.setting.url)
  else .noOp

/-- Whether performing this dispatch terminated the process: a WebRequest
whose network call failed dies in `log.Fatal` inside `HttpPost`. -/
def Dispatch.aborts : Dispatch → Bool
  | .webRequest r => r.isFatal
  | .noOp => false

/-- Observable outcome of one `evaluateLine` call: the matches and their
dispatches in the order the loop produced them, whether the loop aborted
in a panic (from `regexp.MustCompile` on an invalid pattern), and whether
it aborted in a `log.Fatal` inside a WebRequest dispatch.  Dispatches
listed before an abort did happen before the process died; a fatal
dispatch itself is listed, since its POST was sent before `log.Fatal`. -/
structure EvalResult where
  dispatches : List (RuleMatch × Dispatch)
  panicked : Bool
  fatal : Bool
deriving DecidableEq

/-- Embeds `(*App).evaluateLine` (src/connector/app.go, lines 257-300):
loop over the settings in order; skip a rule whose `RegExp` field is
empty; otherwise `regexp.MustCompile` the pattern (panicking on an
invalid one), take `FindString` of the line, skip the rule when that is
empty, and otherwise dispatch on the rule's type — stopping the loop
(and the process) when a WebRequest dispatch dies in `log.Fatal`. -/
def evaluateLine (net : Network) (E : RegexEngine) (line : String) :
    List Setting → EvalResult
  | [] => ⟨[], false, false⟩
  | s :: rest =>
    if s.regExp = "" then evaluateLine net E line rest
    else if E.compileOk s.regExp = false then ⟨[], true, false⟩
    else if E.findString s.regExp line = "" then evaluateLine net E line rest
    else
      let m : RuleMatch := ⟨s, E.findString s.regExp line⟩
      let d := dispatchFor net m
      if d.aborts then ⟨[(m, d)], false, true⟩
      else
        let r := evaluateLine net E line rest
        ⟨(m, d) :: r.dispatches, r.panicked, r.fatal⟩

/-- A paren-balance scan of a pattern: the simplest of the syntax checks
Go's `regexp.Compile` performs.  Used by the concrete engine instances
below; a pattern such as "(" fails it, and `regexp.MustCompile("(")`
panics in Go. -/
def parenScan : List Char → Nat → Bool
  | [], 0 => true
  | [], _ + 1 => false
  | c :: cs, d =>
    if c = '(' then parenScan cs (d + 1)
    else if c = ')' then
      match d with
      | 0 => false
      | e + 1 => parenScan cs e
    else parenScan cs d

/-- Whether `sub` occurs as a contiguous sublist of `s`; Go's
`strings.Contains` on character lists. -/
def containsChars (sub : List Char) : List Char → Bool
  | [] => sub.isEmpty
  | c :: rest => sub.isPrefixOf (c :: rest) || containsChars sub rest

/-- Concrete `RegexEngine` instance for patterns that are plain literals
(no regex metacharacters): the leftmost match of a literal pattern is the
pattern itself when it occurs in the line, and `FindString` returns ""
otherwise.  This agrees with Go's `regexp` on metacharacter-free
patterns; compilation succeeds exactly when the paren scan passes. -/
def litFindString (p line : String) : String :=
  if containsChars p.toList line.toList then p else ""

/-- Literal-pattern engine used to instantiate theorems at concrete
inputs. -/
def litEngine : RegexEngine :=
  ⟨fun p => parenScan p.toList 0, litFindString⟩

/-- Engine modelling a compilable pattern whose leftmost match on every
line of interest is the empty string — e.g. the Go pattern "z*" on a line
containing no "z": `FindString` then returns "". -/
def nullMatchEngine : RegexEngine :=
  ⟨fun _ => true, fun _ _ => ""⟩

/-- A transport on which every POST succeeds, with response body "OK". -/
def upNetwork : Network :=
  ⟨fun _ _ => some "OK"⟩

/-- A transport on which every POST fails (e.g. an unreachable host):
`http.Post` returns an error and the Go code dies in `log.Fatal`. -/
def downNetwork : Network :=
  ⟨fun _ _ => none⟩

/-- The fields of the `App` struct and the package-level variables of
src/connector/app.go that the watch/tail core reads and writes
(`targetFileName`, `SaveData.LogPath`, `SaveData.Settings`, and the
global `lastOffset` of line 222). -/
structure App where
  targetFileName : String
  logPath : String
  settings : List Setting
  lastOffset : Nat
deriving DecidableEq

/-- State effect of entering `(*App).WatchFile` (src/connector/app.go,
lines 185-220): line 187 unconditionally sets `lastOffset = 0`, and only
then is the fsnotify watcher created and `a.SaveData.LogPath` added to
it.  The returned string is the directory subscribed to. -/
def WatchFile (a : App) : App × String :=
  ({ a with lastOffset := 0 }, a.logPath)

/-- Effect of `(*App).ResetOffset` (src/connector/app.go, lines 225-227). -/
def ResetOffset (a : App) : App :=
  { a with lastOffset := 0 }

/-- First occurrence split: `splitFirst sep s = some (pre, post)` when
`sep` first occurs in `s` after prefix `pre`, with `post` the remainder
after that occurrence; `none` when `sep` does not occur.  For a non-empty
`sep`, Go's `strings.Split(s, sep)` is `pre` followed by the split of
`post`. -/
def splitFirst (sep : List Char) : List Char → Option (List Char × List Char)
  | [] => none
  | c :: rest =>
    if sep.isPrefixOf (c :: rest) then some ([], (c :: rest).drop sep.length)
    else
      match splitFirst sep rest with
      | none => none
      | some (pre, post) => some (c :: pre, post)

/-- Element 0 of Go's `strings.Split(s, sep)`: the text before the first
occurrence of `sep`, or all of `s` when `sep` does not occur.  Always
defined — `Split` never returns an empty slice. -/
def goSplitHead (sep s : List Char) : List Char :=
  match splitFirst sep s with
  | some (pre, _) => pre
  | none => s

/-- Element 1 of Go's `strings.Split(s, sep)`: the text between the first
occurrence of `sep` and the next occurrence (or the end).  `none` when
`sep` does not occur in `s` — indexing `[1]` then panics in Go with an
index-out-of-range error. -/
def goSplitSecond (sep s : List Char) : Option (List Char) :=
  match splitFirst sep s with
  | none => none
  | some (_, post) => some (goSplitHead sep post)

/-- Outcome of the legacy line recogniser.  `panicked` models an
index-out-of-range panic; `userEvent` and `worldEvent` carry the
extracted identifier; `noEvent` means neither marker was present. -/
inductive LegacyResult
  | panicked
  | userEvent (userID : String)
  | worldEvent (worldID : String)
  | noEvent
deriving DecidableEq

/-- Embeds the legacy `(*App).evaluateLine` (src/unnamed/part_000, lines
223-245): when the line contains "User Authenticated: ", extract
`strings.Split(strings.Split(line, "(")[1], ")")[0]` — the `[1]` index
panics when the line contains no "(".  Otherwise, when the line contains
"[Behaviour] Joining wrld_", extract the world id up to the next colon
(there the `[1]` index is safe because the separator was just tested by
`strings.Contains`). -/
def legacyEvaluateLine (line : String) : LegacyResult :=
  if containsChars "User Authenticated: ".toList line.toList then
    match goSplitSecond "(".toList line.toList with
    | some second => .userEvent (String.mk (goSplitHead ")".toList second))
    | none => .panicked
  else if containsChars "[Behaviour] Joining wrld_".toList line.toList then
    match goSplitSecond "[Behaviour] Joining ".toList line.toList with
    | some second => .worldEvent (String.mk (goSplitHead ":".toList second))
    | none => .panicked
  else .noEvent

/-! ## Theorems -/

/-- C1: the claim fails on the code.  On the file "abc\npartial" read from
cursor 0, the pass emits the unterminated line "partial" and sets the new
cursor to 11, the raw end-of-read position — not to 4, the offset after
the last complete line, as the claim states.  After the line is completed
to "abc\npartial more\n", the next pass from cursor 11 emits only the
tail fragment " more": the full line "partial more" is never emitted,
contradicting the claim's exactly-once guarantee. -/
theorem readFile_splits_unterminated_line :
    readFile ("abc\npartial".toList) 0 = (["abc".toList, "partial".toList], 11) ∧
    readFile ("abc\npartial more\n".toList) 11 = ([" more".toList], 17) := by
  decide

/-- C2: the claim fails on the code.  When the target file cannot be
opened, `ReadFile` does not skip the pass: `os.Open`'s error goes to
`log.Fatal`, terminating the host process (`ReadOutcome.fatal`), at any
cursor — here 7. -/
theorem ReadFile_open_failure_fatal :
    ReadFile none 7 = ReadOutcome.fatal := by
  decide

/-- C3: the claim fails on the code for the invalid-pattern half.  A rule
whose `RegExp` is the invalid pattern "(" makes `evaluateLine` panic
(`regexp.MustCompile` panics on it) instead of being skipped — on every
transport, since the panic precedes any dispatch — while a rule with an
empty `RegExp` is indeed skipped without error. -/
theorem evaluateLine_invalid_pattern_panics (net : Network) :
    (evaluateLine net litEngine "hello"
      [⟨"r1", "Bad", "", "", "Web Request", "http://x/hook", "("⟩]).panicked = true ∧
    evaluateLine net litEngine "hello"
      [⟨"r0", "T", "", "", "Web Request", "http://x/hook", ""⟩] = ⟨[], false, false⟩ :=
  ⟨rfl, rfl⟩

/-- C4: the independence clause of the claim fails on the code.  On the
line "hello", rules R1 (pattern "llo") and R2 (pattern "he"), both
WebRequest sinks, both match; with a working transport both dispatch in
rule order, each posting its own matched substring (first conjunct).  But
when R1's POST hits a transport error, the Go code dies in `log.Fatal`
(src/connector/app.go, line 334) inside R1's dispatch: the loop never
reaches R2, which produces no Match and no dispatch (second conjunct).
R2's dispatch thus depends on the outcome of R1's — whereas the spec
(sections 4.4 and 7) makes a dispatch failure logged and non-fatal, so
the claimed independence is the documented intent and the `log.Fatal` a
slip. -/
theorem evaluateLine_dispatch_not_independent :
    evaluateLine upNetwork litEngine "hello"
      [⟨"1", "R1", "", "", "Web Request", "http://x/hook", "llo"⟩,
       ⟨"2", "R2", "", "", "Web Request", "http://y/hook", "he"⟩] =
      ⟨[(⟨⟨"1", "R1", "", "", "Web Request", "http://x/hook", "llo"⟩, "llo"⟩,
          Dispatch.webRequest (HttpPostResult.posted ⟨"llo", "R1"⟩ "http://x/hook" "OK")),
        (⟨⟨"2", "R2", "", "", "Web Request", "http://y/hook", "he"⟩, "he"⟩,
          Dispatch.webRequest (HttpPostResult.posted ⟨"he", "R2"⟩ "http://y/hook" "OK"))],
       false, false⟩ ∧
    evaluateLine downNetwork litEngine "hello"
      [⟨"1", "R1", "", "", "Web Request", "http://x/hook", "llo"⟩,
       ⟨"2", "R2", "", "", "Web Request", "http://y/hook", "he"⟩] =
      ⟨[(⟨⟨"1", "R1", "", "", "Web Request", "http://x/hook", "llo"⟩, "llo"⟩,
          Dispatch.webRequest (HttpPostResult.fatal ⟨"llo", "R1"⟩ "http://x/hook"))],
       false, true⟩ := by
  decide

/-- C5: confirmed.  When the configured URL is empty or does not start
with "http", `HttpPost` returns one of the two invalid-configuration
early returns and the `http.Post` network call is never reached, for
every payload. -/
theorem HttpPost_invalid_url_no_network (net : Network) (e t url : String)
    (h : url = "" ∨ goHasPrefix url "http" = false) :
    (HttpPost net e t url).networkCalled = false ∧
    (HttpPost net e t url).invalidConfig = true := by
  rcases h with h | h
  · simp [HttpPost, h, HttpPostResult.networkCalled, HttpPostResult.invalidConfig]
  · by_cases h0 : url = ""
    · simp [HttpPost, h0, HttpPostResult.networkCalled, HttpPostResult.invalidConfig]
    · simp [HttpPost, h0, h, HttpPostResult.networkCalled, HttpPostResult.invalidConfig]

/-- C5 witness: the concrete URL "not-a-url" does not start with "http",
and dispatching to it performs no network call and reports invalid
configuration (shown on the always-succeeding transport, on which any
network call would have been visible as a `posted` outcome). -/
theorem HttpPost_invalid_url_no_network_witness :
    ("not-a-url" = "" ∨ goHasPrefix "not-a-url" "http" = false) ∧
    ((HttpPost upNetwork "ev" "T" "not-a-url").networkCalled = false ∧
     (HttpPost upNetwork "ev" "T" "not-a-url").invalidConfig = true) :=
  ⟨Or.inr (by decide),
    HttpPost_invalid_url_no_network upNetwork "ev" "T" "not-a-url" (Or.inr (by decide))⟩

/-- C6: confirmed.  Tail is idempotent: a second `ReadFile` pass on the
unchanged file, starting from the cursor the first pass produced, reads
no lines and returns that same cursor — for every file content and every
initial cursor. -/
theorem readFile_second_pass_empty (content : List Char) (c : Nat) :
    ReadFile (some content) ((readFile content c).2) =
      ReadOutcome.ok [] ((readFile content c).2) := by
  unfold ReadFile readFile
  by_cases h : content.length ≤ c
  · simp [h]
  · simp [h]

/-- C7 counterexample: with file content "a\n" (size 2) and cursor 5, the
pass does not clamp the cursor to 0 and re-read: it emits nothing and
returns cursor 5 unchanged, not the claimed re-read result (["a"], 2). -/
theorem readFile_no_clamp_counterexample :
    readFile "a\n".toList 5 = ([], 5) ∧
    readFile "a\n".toList 5 ≠ (["a".toList], 2) := by
  decide

/-- C7 amended: a tail pass whose starting cursor exceeds the current
file size performs no clamping and no re-read: the seek succeeds past
end of file, the scanner reads no bytes, no lines are emitted, and the
cursor is left unchanged at its out-of-range value. -/
theorem readFile_cursor_beyond_eof (content : List Char) (c : Nat)
    (h : content.length < c) :
    readFile content c = ([], c) := by
  unfold readFile
  simp [Nat.le_of_lt h]

/-- C7 witness: content "a\n" has size 2 < 5, and the pass from cursor 5
returns no lines and cursor 5. -/
theorem readFile_cursor_beyond_eof_witness :
    ("a\n".toList.length < 5) ∧ readFile "a\n".toList 5 = ([], 5) :=
  ⟨by decide, readFile_cursor_beyond_eof "a\n".toList 5 (by decide)⟩

/-- C8: confirmed.  Entering `WatchFile` unconditionally sets the shared
`lastOffset` to 0 before the directory subscription is created (the
subscribed directory being the saved log path), so the first tail pass of
the watch session scans every line of the current file from byte 0 —
regardless of the previous cursor value and without any file-name change
or explicit rescan. -/
theorem WatchFile_resets_cursor (a : App) :
    (WatchFile a).1.lastOffset = 0 ∧ (WatchFile a).2 = a.logPath ∧
    ∀ content : List Char,
      (readFile content (WatchFile a).1.lastOffset).1 = scanLines content := by
  refine ⟨rfl, rfl, fun content => ?_⟩
  by_cases h : content = []
  · subst h; rfl
  · have hl : ¬ content.length ≤ 0 :=
      fun hle => h (List.length_eq_zero.mp (Nat.le_zero.mp hle))
    simp [WatchFile, readFile, hl]

/-- C9: confirmed.  When the leftmost match of a rule's (compilable)
pattern in the line is the empty string, `FindString` returns "" — the
same value as for no match at all — and the `matches != ""` guard drops
the rule: it contributes no match and no dispatch, and evaluation of the
remaining rules is exactly as if the rule were absent. -/
theorem evaluateLine_empty_match_skipped (net : Network) (E : RegexEngine)
    (line : String) (s : Setting) (rest : List Setting)
    (h1 : E.compileOk s.regExp = true)
    (h2 : E.findString s.regExp line = "") :
    evaluateLine net E line (s :: rest) = evaluateLine net E line rest := by
  by_cases h0 : s.regExp = ""
  · simp [evaluateLine, h0]
  · simp [evaluateLine, h0, h1, h2]

/-- C9 witness: a rule whose pattern "z*" matches only the empty string
on the line "hello" (modelled by `nullMatchEngine`) compiles, returns the
empty match, and fires nothing: evaluating it equals evaluating the empty
rule list. -/
theorem evaluateLine_empty_match_skipped_witness :
    (nullMatchEngine.compileOk "z*" = true ∧
     nullMatchEngine.findString "z*" "hello" = "") ∧
    evaluateLine upNetwork nullMatchEngine "hello"
      [⟨"3", "Star", "", "", "Web Request", "http://x/hook", "z*"⟩] =
      evaluateLine upNetwork nullMatchEngine "hello" [] :=
  ⟨⟨rfl, rfl⟩,
    evaluateLine_empty_match_skipped upNetwork nullMatchEngine "hello"
      ⟨"3", "Star", "", "", "Web Request", "http://x/hook", "z*"⟩ [] rfl rfl⟩

/-- C10: confirmed.  The legacy recogniser is partial: on the line
"2024.01.01 Log - User Authenticated: foo", which contains the marker but
no "(", the `strings.Split(line, "(")[1]` index is out of range and the
evaluation panics; on a line where the marker is followed by a
parenthesized identifier, the extraction succeeds and yields the
identifier between the parentheses. -/
theorem legacyEvaluateLine_panics_without_paren :
    legacyEvaluateLine "2024.01.01 Log - User Authenticated: foo" =
      LegacyResult.panicked ∧
    legacyEvaluateLine "User Authenticated: foo (usr_123)" =
      LegacyResult.userEvent "usr_123" := by
  decide

end Vrcwd
